import Mathlib

/-!
Verification of the evalcache lazy-evaluation engine (`evalcache/lazy.py`).

Modelling conventions, each matching a construct of the source file:

* Python values that occur as operands, cache entries and results are the
  inductive `PyObj`.  Python's `None` is the constructor `PyObj.pynone`
  (the source tests `is not None` in `LazyObject.__init__` and `unlazy`).
  A plain function (`types.FunctionType`) carries its `__qualname__`, its
  `__module__` name, that module's `__file__`, and — to let us speak about
  address-independence — the runtime address `id(f)`, which the source
  never reads.  A `LazyObject` occurring as an operand is represented by
  the digest it would contribute (`updatehash_LazyObject` feeds exactly
  `obj.__lazyhash__` into the accumulator, nothing else of the object).
  `builtin` covers callables that are not `types.FunctionType` and hence
  fall through `hashfuncs` to the `repr` branch of `updatehash` (for
  example `getattr`, whose repr is "<built-in function getattr>").

* The hashlib accumulator `m` is modelled by the string of bytes fed to it
  via `m.update(...)`: consecutive updates concatenate.  `m.digest()` is
  modelled as that stream itself, i.e. the hash function is taken to be
  ideal (injective on streams).  This is the standard idealisation: the
  real sha256 gives equal digests on equal streams, and is assumed
  collision-free on distinct streams.  `m.hexdigest()` is an injective
  re-encoding of the digest; since no claim compares a digest with a hex
  digest, `hexdigestOf` is the identity on the stream.

* `bytes` and `str.encode("utf-8")` are both modelled as `String`
  (utf-8 encoding is injective; all strings involved are plain ASCII).
  Python `repr` of an int is its decimal text; `repr` of a str wraps it
  in single quotes (escaping of exotic characters is not modelled; all
  keys and names used are plain identifiers).

* The `Lazy` factory keeps its `encache`/`decache` defaults.  Its `cache`
  member (a dict-like store) is passed to `unlazy` as an explicit
  association list and returned updated; `algo` is the ideal accumulator
  above; `diag` only prints, so it is dropped.

* `lazydo obj` runs arbitrary Python (expansion of the operands and the
  wrapped callable), so `unlazy` takes the outcome of that single call as
  a parameter `execOut : Except String PyObj` (`.error` models the
  callable raising; in the source the exception aborts `unlazy` before
  `obj.__lazyvalue__` is assigned, leaving node and cache untouched).
  The `execs` field of the result counts how often `lazydo` was invoked,
  which is how "the callable is executed n times" is observed.
-/

/-- Python values as they appear as operands, cache entries and results. -/
inductive PyObj where
  | pynone
  | int (n : Int)
  | str (s : String)
  | tuple (elems : List PyObj)
  | list (elems : List PyObj)
  | dict (items : List (String × PyObj))
  | func (qualname modname modfile : String) (addr : Nat)
  | builtin (rep : String)
  | lazy (digest : String)

/-- Whether a value `is None` (Python identity test against the `None`
singleton, used by `LazyObject.__init__` and `unlazy`). -/
def isPyNone : PyObj → Bool
  | .pynone => true
  | _ => false

/-- Python single-quote character, as used by `repr` on strings. -/
def pyQuote : String := "\x27"

/-- Python `repr` of an int: its decimal text. -/
def pyReprInt (n : Int) : String := toString n

/-- Python `repr` of a str: the text wrapped in single quotes. -/
def pyReprStr (s : String) : String := pyQuote ++ s ++ pyQuote

/-- Contribution of `updatehash_function` (lazy.py 264-273): the
`__qualname__`, then the `__module__` name, then that module's
`__file__`.  The function's address is never fed in. -/
def updatehash_function (qualname modname modfile : String) : String :=
  qualname ++ modname ++ modfile

/-- Stable insertion of a hashed key/value pair by key, ascending.
Models the order produced by Python's `sorted(obj.items())`: tuples are
compared by key first, and dict keys are unique, so values never take
part in the comparison. -/
def insortKV (p : String × String) : List (String × String) → List (String × String)
  | [] => [p]
  | q :: rest => if p.1 ≤ q.1 then p :: q :: rest else q :: insortKV p rest

/-- Sort hashed key/value pairs by key (Python `sorted(obj.items())`). -/
def sortKV : List (String × String) → List (String × String)
  | [] => []
  | p :: rest => insortKV p (sortKV rest)

/-- Feed sorted pairs: for each pair, the key's repr then the value's
already-computed contribution (the loop body of `updatehash_dict`). -/
def concatKV : List (String × String) → String
  | [] => ""
  | p :: rest => pyReprStr p.1 ++ p.2 ++ concatKV rest

mutual

/-- Byte stream fed to the accumulator by `updatehash(m, obj)`
(lazy.py 284-304), dispatching on the value's class via `hashfuncs`:
`LazyObject` feeds its precomputed digest (`updatehash_LazyObject`),
tuples and lists feed their elements in order with no delimiter
(`updatehash_list`), dicts feed key/value pairs sorted by key
(`updatehash_dict`), plain functions feed their stable identity
(`updatehash_function`), everything else feeds `repr(obj)`. -/
def updatehash : PyObj → String
  | .pynone => "None"
  | .int n => pyReprInt n
  | .str s => pyReprStr s
  | .tuple elems => updatehash_list elems
  | .list elems => updatehash_list elems
  | .dict items => concatKV (sortKV (hashKV items))
  | .func qualname modname modfile _ => updatehash_function qualname modname modfile
  | .builtin rep => rep
  | .lazy digest => digest

/-- Stream fed by `updatehash_list` (lazy.py 252-254): each element's
contribution in order, with no delimiter between elements. -/
def updatehash_list : List PyObj → String
  | [] => ""
  | e :: rest => updatehash e ++ updatehash_list rest

/-- Hash every value of a key/value list, keeping the keys.  Sorting by
key commutes with this (keys are untouched), so
`concatKV (sortKV (hashKV items))` is the stream fed by
`updatehash_dict` (lazy.py 256-259), which sorts first and then feeds
each key and value. -/
def hashKV : List (String × PyObj) → List (String × String)
  | [] => []
  | p :: rest => (p.1, updatehash p.2) :: hashKV rest

end

/-- Hex re-encoding of a digest (`m.hexdigest()`).  Injective, and no
claim mixes digests with hex digests, so modelled as the identity. -/
def hexdigestOf (s : String) : String := s

/-- The `Lazy` factory (lazy.py 10-31): the `encache`/`decache`
defaults.  The `cache` store is threaded explicitly through `unlazy`;
`algo` is the ideal accumulator; `diag` only prints. -/
structure Lazy where
  encache : Bool
  decache : Bool

/-- A `LazyObject` (lazy.py 33-70): policy flags, the call structure,
the resolved-value slot `__lazyvalue__` (`pynone` = empty) and the
digests computed once at construction. -/
structure LazyObject where
  lazybase : Lazy
  encache : Bool
  decache : Bool
  generic : Option PyObj
  args : List PyObj
  kwargs : List (String × PyObj)
  lazyvalue : PyObj
  lazyhash : String
  lazyhexhash : String

/-- Stream accumulated by `LazyObject.__init__` (lazy.py 63-70):
`updatehash(m, generic)` if generic is not None, `updatehash(m, args)`
if `len(args)` is nonzero (args is a tuple), `updatehash(m, kwargs)` if
`len(kwargs)` is nonzero (kwargs is a dict), `updatehash(m, value)` if
value is not None. -/
def hashStream (generic : Option PyObj) (args : List PyObj)
    (kwargs : List (String × PyObj)) (value : PyObj) : String :=
  (match generic with
    | Option.none => ""
    | Option.some g => updatehash g) ++
  (if args.length ≠ 0 then updatehash (PyObj.tuple args) else "") ++
  (if kwargs.length ≠ 0 then updatehash (PyObj.dict kwargs) else "") ++
  (if isPyNone value then "" else updatehash value)

/-- The constructor `LazyObject.__init__` (lazy.py 53-70): each policy
flag is the explicit argument when that argument is not None, else the
factory default; the slot is the `value` argument (None for call
nodes); the digest and hex digest are computed once, here. -/
def mkLazyObject (lazifier : Lazy) (generic : Option PyObj) (args : List PyObj)
    (kwargs : List (String × PyObj)) (encache decache : Option Bool)
    (value : PyObj) : LazyObject :=
  let stream := hashStream generic args kwargs value
  { lazybase := lazifier
    encache := encache.getD lazifier.encache
    decache := decache.getD lazifier.decache
    generic := generic
    args := args
    kwargs := kwargs
    lazyvalue := value
    lazyhash := stream
    lazyhexhash := hexdigestOf stream }

/-- Attribute access `LazyObject.__getattr__` (lazy.py 76): a new node
whose generic is the builtin `getattr` (not a `types.FunctionType`, so
hashed through the repr branch), whose args are the receiver and the
attribute name, and whose policy flags are both forced off. -/
def LazyObject.getattrNode (self : LazyObject) (item : String) : LazyObject :=
  mkLazyObject self.lazybase (Option.some (PyObj.builtin "<built-in function getattr>"))
    [PyObj.lazy self.lazyhash, PyObj.str item] [] (Option.some false) (Option.some false)
    PyObj.pynone

/-- Call construction `LazyObject.__call__` (lazy.py 73): the generic is
the receiver itself (hashed by its digest, per `updatehash_LazyObject`),
no flag overrides. -/
def LazyObject.call (self : LazyObject) (args : List PyObj)
    (kwargs : List (String × PyObj)) : LazyObject :=
  mkLazyObject self.lazybase (Option.some (PyObj.lazy self.lazyhash)) args kwargs
    Option.none Option.none PyObj.pynone

/-- Comparison `LazyObject.__eq__` (lazy.py 112): digest equality. -/
def LazyObject.eq (self oth : LazyObject) : Bool :=
  self.lazyhash == oth.lazyhash

/-- Comparison `LazyObject.__ne__` (lazy.py 113): digest inequality. -/
def LazyObject.ne (self oth : LazyObject) : Bool :=
  self.lazyhash != oth.lazyhash

/-- The factory's dict-like cache store, keyed by hex digest. -/
abbrev Cache := List (String × PyObj)

/-- Membership test and item access of the store (`k in cache` /
`cache[k]`), in one lookup. -/
def cacheFind : Cache → String → Option PyObj
  | [], _ => Option.none
  | p :: rest, k => if p.1 = k then Option.some p.2 else cacheFind rest k

/-- Item assignment `cache[k] = v` of the store. -/
def cacheStore : Cache → String → PyObj → Cache
  | [], k, v => [(k, v)]
  | p :: rest, k, v => if p.1 = k then (k, v) :: rest else p :: cacheStore rest k v

/-- Outcome of one call of `unlazy`: the returned value or the exception
that escaped, the node after the call (the source mutates
`obj.__lazyvalue__` in place), the store after the call, and how many
times `lazydo` ran (0 or 1). -/
structure UnlazyResult where
  ret : Except String PyObj
  obj : LazyObject
  cache : Cache
  execs : Nat

/-- Resolution `unlazy(obj)` (lazy.py 198-240).  If the slot is not
None, return it (memo tier).  Else if `__decache__` is set and the hex
digest is a key of the store, load that entry into the slot and return
it (cache tier).  Else run `lazydo` — its outcome is the parameter
`execOut`; a raise escapes before the slot assignment — and on success
store the result in the slot, and also in the store when `__encache__`
is set. -/
def unlazy (execOut : Except String PyObj) (obj : LazyObject) (cache : Cache) :
    UnlazyResult :=
  if isPyNone obj.lazyvalue = false then
    ⟨Except.ok obj.lazyvalue, obj, cache, 0⟩
  else
    match (if obj.decache then cacheFind cache obj.lazyhexhash else Option.none) with
    | Option.some v => ⟨Except.ok v, { obj with lazyvalue := v }, cache, 0⟩
    | Option.none =>
      match execOut with
      | Except.error e => ⟨Except.error e, obj, cache, 1⟩
      | Except.ok v =>
        if obj.encache then
          ⟨Except.ok v, { obj with lazyvalue := v },
            cacheStore cache obj.lazyhexhash v, 1⟩
        else
          ⟨Except.ok v, { obj with lazyvalue := v }, cache, 1⟩

/-!
Address erasure.  `eraseAddr` zeroes the runtime address of every
function occurring in a value; two values with the same erasure are
"structurally identical, built over the same callables, possibly in
different process runs".  The fingerprint never reads the address.
-/

mutual

/-- Zero out the runtime address of every function in a value. -/
def eraseAddr : PyObj → PyObj
  | .func qualname modname modfile _ => .func qualname modname modfile 0
  | .tuple elems => .tuple (eraseAddrList elems)
  | .list elems => .list (eraseAddrList elems)
  | .dict items => .dict (eraseAddrKV items)
  | .pynone => .pynone
  | .int n => .int n
  | .str s => .str s
  | .builtin rep => .builtin rep
  | .lazy digest => .lazy digest

/-- Address erasure on every element of a list. -/
def eraseAddrList : List PyObj → List PyObj
  | [] => []
  | e :: rest => eraseAddr e :: eraseAddrList rest

/-- Address erasure on every value of a key/value list. -/
def eraseAddrKV : List (String × PyObj) → List (String × PyObj)
  | [] => []
  | p :: rest => (p.1, eraseAddr p.2) :: eraseAddrKV rest

end

theorem eraseAddrList_length : ∀ l : List PyObj, (eraseAddrList l).length = l.length
  | [] => rfl
  | _ :: rest => by simp [eraseAddrList, eraseAddrList_length rest]

theorem eraseAddrKV_length : ∀ l : List (String × PyObj), (eraseAddrKV l).length = l.length
  | [] => rfl
  | _ :: rest => by simp [eraseAddrKV, eraseAddrKV_length rest]

mutual

theorem updatehash_eraseAddr : ∀ x : PyObj, updatehash (eraseAddr x) = updatehash x
  | .pynone => rfl
  | .int _ => rfl
  | .str _ => rfl
  | .tuple elems => by
      simp only [eraseAddr, updatehash, updatehash_list_eraseAddr elems]
  | .list elems => by
      simp only [eraseAddr, updatehash, updatehash_list_eraseAddr elems]
  | .dict items => by
      simp only [eraseAddr, updatehash, hashKV_eraseAddr items]
  | .func _ _ _ _ => rfl
  | .builtin _ => rfl
  | .lazy _ => rfl

theorem updatehash_list_eraseAddr :
    ∀ l : List PyObj, updatehash_list (eraseAddrList l) = updatehash_list l
  | [] => rfl
  | e :: rest => by
      simp only [eraseAddrList, updatehash_list, updatehash_eraseAddr e,
        updatehash_list_eraseAddr rest]

theorem hashKV_eraseAddr :
    ∀ l : List (String × PyObj), hashKV (eraseAddrKV l) = hashKV l
  | [] => rfl
  | p :: rest => by
      simp only [eraseAddrKV, hashKV, updatehash_eraseAddr p.2, hashKV_eraseAddr rest]

end

theorem unlazy_slot (eo : Except String PyObj) (obj : LazyObject) (c : Cache)
    (h : isPyNone obj.lazyvalue = false) :
    unlazy eo obj c = ⟨Except.ok obj.lazyvalue, obj, c, 0⟩ := by
  simp [unlazy, h]

theorem unlazy_miss_ok (obj : LazyObject) (c : Cache) (v : PyObj)
    (hslot : obj.lazyvalue = PyObj.pynone)
    (hmiss : obj.decache = false ∨ cacheFind c obj.lazyhexhash = Option.none) :
    unlazy (Except.ok v) obj c =
      ⟨Except.ok v, { obj with lazyvalue := v },
        if obj.encache then cacheStore c obj.lazyhexhash v else c, 1⟩ := by
  rcases hmiss with hdec | hfind
  · by_cases henc : obj.encache <;> simp [unlazy, hslot, isPyNone, hdec, henc]
  · by_cases hdec : obj.decache <;> by_cases henc : obj.encache <;>
      simp [unlazy, hslot, isPyNone, hdec, hfind, henc]

theorem unlazy_miss_error (obj : LazyObject) (c : Cache) (e : String)
    (hslot : obj.lazyvalue = PyObj.pynone)
    (hmiss : obj.decache = false ∨ cacheFind c obj.lazyhexhash = Option.none) :
    unlazy (Except.error e) obj c = ⟨Except.error e, obj, c, 1⟩ := by
  rcases hmiss with hdec | hfind
  · simp [unlazy, hslot, isPyNone, hdec]
  · by_cases hdec : obj.decache <;> simp [unlazy, hslot, isPyNone, hdec, hfind]

theorem isPyNone_true_iff : ∀ x : PyObj, isPyNone x = true ↔ x = PyObj.pynone := by
  intro x
  cases x <;> simp [isPyNone]

theorem unlazy_hit (eo : Except String PyObj) (obj : LazyObject) (c : Cache) (w : PyObj)
    (hslot : obj.lazyvalue = PyObj.pynone) (hdec : obj.decache = true)
    (hfind : cacheFind c obj.lazyhexhash = Option.some w) :
    unlazy eo obj c = ⟨Except.ok w, { obj with lazyvalue := w }, c, 0⟩ := by
  simp [unlazy, hslot, isPyNone, hdec, hfind]

theorem unlazy_ret_slot (eo : Except String PyObj) (obj : LazyObject) (c : Cache)
    (v : PyObj) (h : (unlazy eo obj c).ret = Except.ok v) :
    (unlazy eo obj c).obj.lazyvalue = v := by
  by_cases h1 : isPyNone obj.lazyvalue = false
  · rw [unlazy_slot eo obj c h1] at h ⊢
    simpa using h
  · have hpn : obj.lazyvalue = PyObj.pynone := by
      rw [← isPyNone_true_iff]
      simpa using h1
    by_cases hdec : obj.decache = true
    · rcases hfind : cacheFind c obj.lazyhexhash with _ | w
      · cases eo with
        | error e =>
          rw [unlazy_miss_error obj c e hpn (Or.inr hfind)] at h
          simp at h
        | ok w2 =>
          rw [unlazy_miss_ok obj c w2 hpn (Or.inr hfind)] at h ⊢
          simpa using h
      · rw [unlazy_hit eo obj c w hpn hdec hfind] at h ⊢
        simpa using h
    · have hdec2 : obj.decache = false := by simpa using hdec
      cases eo with
      | error e =>
        rw [unlazy_miss_error obj c e hpn (Or.inl hdec2)] at h
        simp at h
      | ok w2 =>
        rw [unlazy_miss_ok obj c w2 hpn (Or.inl hdec2)] at h ⊢
        simpa using h

theorem unlazy_execs_le_one (eo : Except String PyObj) (obj : LazyObject) (c : Cache) :
    (unlazy eo obj c).execs ≤ 1 := by
  unfold unlazy
  split
  · simp
  · split
    · simp
    · split
      · simp
      · split <;> simp

def exBase : Lazy := ⟨true, true⟩

def exF : PyObj := PyObj.func "f" "mod" "/home/mod.py" 77

def exEndpoint : LazyObject :=
  mkLazyObject exBase Option.none [] [] Option.none Option.none (PyObj.int 7)

def exGetattrNode : LazyObject := exEndpoint.getattrNode "val"

def exCallNode : LazyObject :=
  mkLazyObject exBase (Option.some exF) [PyObj.int 1] [] Option.none Option.none PyObj.pynone

/-- C1 (amended): once a resolve call has returned a non-None value, the
slot holds it and every later resolve returns the same value with zero
executions and no change to node or store, for any cache contents and
any execution outcome; any single resolve executes the callable at most
once. -/
theorem C1_at_most_once_nonnone (eo : Except String PyObj) (obj : LazyObject)
    (c : Cache) (v : PyObj)
    (hret : (unlazy eo obj c).ret = Except.ok v) (hv : isPyNone v = false) :
    (unlazy eo obj c).execs ≤ 1 ∧
    ∀ eo2 c2, unlazy eo2 (unlazy eo obj c).obj c2 =
      ⟨Except.ok v, (unlazy eo obj c).obj, c2, 0⟩ := by
  refine ⟨unlazy_execs_le_one eo obj c, fun eo2 c2 => ?_⟩
  have hslot := unlazy_ret_slot eo obj c v hret
  have hfull : isPyNone (unlazy eo obj c).obj.lazyvalue = false := by rw [hslot]; exact hv
  rw [unlazy_slot eo2 _ c2 hfull, hslot]

/-- C1 counterexample: a Call Node (built by attribute access, so with
caching off) whose callable returns None is executed again by a second
resolve call: the two resolves run `lazydo` twice, where the claim says
the callable runs at most once regardless of the number of resolve
calls. -/
theorem C1_counterexample_none_result_reexecutes :
    (unlazy (Except.ok PyObj.pynone) exGetattrNode []).execs +
      (unlazy (Except.ok PyObj.pynone)
        (unlazy (Except.ok PyObj.pynone) exGetattrNode []).obj
        (unlazy (Except.ok PyObj.pynone) exGetattrNode []).cache).execs = 2 := rfl

/-- Witness for the amended C1 at a concrete node: the first resolve of
a fresh Call Node returns 3; re-resolving the returned node performs no
execution and no store access even when the second execution outcome
would be an exception and the store is empty. -/
theorem C1_at_most_once_nonnone_witness :
    (unlazy (Except.ok (PyObj.int 3)) exCallNode []).execs ≤ 1 ∧
    unlazy (Except.error "boom") (unlazy (Except.ok (PyObj.int 3)) exCallNode []).obj [] =
      ⟨Except.ok (PyObj.int 3), (unlazy (Except.ok (PyObj.int 3)) exCallNode []).obj, [], 0⟩ :=
  ⟨(C1_at_most_once_nonnone (Except.ok (PyObj.int 3)) exCallNode [] (PyObj.int 3) rfl rfl).1,
   (C1_at_most_once_nonnone (Except.ok (PyObj.int 3)) exCallNode [] (PyObj.int 3) rfl rfl).2
     (Except.error "boom") []⟩

/-- C6: with the read-policy flag off, an unresolved node never
consults the store: even when the store holds an entry under the node's
hex key, resolution runs the callable once and returns its fresh
output, not the stored entry (when the two differ). -/
theorem C6_decache_disabled_executes_fresh (obj : LazyObject) (c : Cache) (v w : PyObj)
    (hslot : obj.lazyvalue = PyObj.pynone) (hdec : obj.decache = false)
    (_hstored : cacheFind c obj.lazyhexhash = Option.some w) :
    unlazy (Except.ok v) obj c =
      ⟨Except.ok v, { obj with lazyvalue := v },
        if obj.encache then cacheStore c obj.lazyhexhash v else c, 1⟩ ∧
    (w ≠ v → (unlazy (Except.ok v) obj c).ret ≠ Except.ok w) := by
  have h := unlazy_miss_ok obj c v hslot (Or.inl hdec)
  refine ⟨h, fun hne => ?_⟩
  rw [h]
  intro hcontra
  have hv : v = w := by simpa using hcontra
  exact hne hv.symm

/-- Witness for C6: a caching-off attribute node resolves to the fresh
value 5 although the store holds 99 under its key. -/
theorem C6_decache_disabled_executes_fresh_witness :
    unlazy (Except.ok (PyObj.int 5)) exGetattrNode
        [(exGetattrNode.lazyhexhash, PyObj.int 99)] =
      ⟨Except.ok (PyObj.int 5), { exGetattrNode with lazyvalue := PyObj.int 5 },
        if exGetattrNode.encache then
          cacheStore [(exGetattrNode.lazyhexhash, PyObj.int 99)]
            exGetattrNode.lazyhexhash (PyObj.int 5)
        else [(exGetattrNode.lazyhexhash, PyObj.int 99)], 1⟩ ∧
    (PyObj.int 99 ≠ PyObj.int 5 →
      (unlazy (Except.ok (PyObj.int 5)) exGetattrNode
        [(exGetattrNode.lazyhexhash, PyObj.int 99)]).ret ≠ Except.ok (PyObj.int 99)) :=
  C6_decache_disabled_executes_fresh exGetattrNode
    [(exGetattrNode.lazyhexhash, PyObj.int 99)] (PyObj.int 5) (PyObj.int 99)
    rfl rfl (by simp [cacheFind])

/-- C7: with the write-policy flag off and the key absent from the
store, resolution executes the callable once, returns its value, and
leaves the store without the node's key. -/
theorem C7_encache_disabled_no_store_write (obj : LazyObject) (c : Cache) (v : PyObj)
    (hslot : obj.lazyvalue = PyObj.pynone) (henc : obj.encache = false)
    (habsent : cacheFind c obj.lazyhexhash = Option.none) :
    unlazy (Except.ok v) obj c = ⟨Except.ok v, { obj with lazyvalue := v }, c, 1⟩ ∧
    cacheFind (unlazy (Except.ok v) obj c).cache obj.lazyhexhash = Option.none := by
  have h := unlazy_miss_ok obj c v hslot (Or.inr habsent)
  have hif : (if obj.encache then cacheStore c obj.lazyhexhash v else c) = c := by
    rw [henc]
    simp
  rw [hif] at h
  exact ⟨h, by rw [h]; exact habsent⟩

/-- Witness for C7: the caching-off attribute node resolves to 5 and
the empty store stays empty. -/
theorem C7_encache_disabled_no_store_write_witness :
    unlazy (Except.ok (PyObj.int 5)) exGetattrNode [] =
      ⟨Except.ok (PyObj.int 5), { exGetattrNode with lazyvalue := PyObj.int 5 }, [], 1⟩ ∧
    cacheFind (unlazy (Except.ok (PyObj.int 5)) exGetattrNode []).cache
      exGetattrNode.lazyhexhash = Option.none :=
  C7_encache_disabled_no_store_write exGetattrNode [] (PyObj.int 5) rfl rfl rfl

/-- C8: when the callable raises, the exception propagates unmodified,
the slot stays empty and the store untouched; a later resolve on the
same node retries the execution from scratch. -/
theorem C8_exec_failure_propagates_state_unchanged (obj : LazyObject) (c : Cache)
    (e : String) (v : PyObj)
    (hslot : obj.lazyvalue = PyObj.pynone)
    (hmiss : obj.decache = false ∨ cacheFind c obj.lazyhexhash = Option.none) :
    unlazy (Except.error e) obj c = ⟨Except.error e, obj, c, 1⟩ ∧
    unlazy (Except.ok v) obj c =
      ⟨Except.ok v, { obj with lazyvalue := v },
        if obj.encache then cacheStore c obj.lazyhexhash v else c, 1⟩ :=
  ⟨unlazy_miss_error obj c e hslot hmiss, unlazy_miss_ok obj c v hslot hmiss⟩

/-- Witness for C8: a raising execution leaves the fresh Call Node and
the empty store unchanged, and the retry then computes 3 and stores
it. -/
theorem C8_exec_failure_propagates_state_unchanged_witness :
    unlazy (Except.error "boom") exCallNode [] =
      ⟨Except.error "boom", exCallNode, [], 1⟩ ∧
    unlazy (Except.ok (PyObj.int 3)) exCallNode [] =
      ⟨Except.ok (PyObj.int 3), { exCallNode with lazyvalue := PyObj.int 3 },
        if exCallNode.encache then
          cacheStore [] exCallNode.lazyhexhash (PyObj.int 3) else [], 1⟩ :=
  C8_exec_failure_propagates_state_unchanged exCallNode [] "boom" (PyObj.int 3)
    rfl (Or.inr rfl)

/-- C9: a node built by attribute access has both policy flags forced
off whatever the factory defaults, and resolving it never writes to the
store (the store comes back unchanged) nor reads from it (outcome, node
and execution count are the same for any two store contents). -/
theorem C9_getattr_node_cache_isolated (self : LazyObject) (item : String)
    (eo : Except String PyObj) (c1 c2 : Cache) :
    (self.getattrNode item).encache = false ∧
    (self.getattrNode item).decache = false ∧
    (unlazy eo (self.getattrNode item) c1).cache = c1 ∧
    (unlazy eo (self.getattrNode item) c1).ret = (unlazy eo (self.getattrNode item) c2).ret ∧
    (unlazy eo (self.getattrNode item) c1).obj = (unlazy eo (self.getattrNode item) c2).obj ∧
    (unlazy eo (self.getattrNode item) c1).execs =
      (unlazy eo (self.getattrNode item) c2).execs := by
  have hdec : (self.getattrNode item).decache = false := rfl
  have hslot : (self.getattrNode item).lazyvalue = PyObj.pynone := rfl
  refine ⟨rfl, rfl, ?_⟩
  cases eo with
  | error e =>
    rw [unlazy_miss_error _ c1 e hslot (Or.inl hdec),
      unlazy_miss_error _ c2 e hslot (Or.inl hdec)]
    exact ⟨rfl, rfl, rfl, rfl⟩
  | ok v =>
    rw [unlazy_miss_ok _ c1 v hslot (Or.inl hdec),
      unlazy_miss_ok _ c2 v hslot (Or.inl hdec)]
    exact ⟨rfl, rfl, rfl, rfl⟩

/-- C10: equality and inequality of lazy objects are exactly equality
and inequality of their byte digests, and neither comparison looks at
the resolved-value slot (so no resolution is involved). -/
theorem C10_eq_is_digest_equality (a b : LazyObject) :
    (a.eq b = true ↔ a.lazyhash = b.lazyhash) ∧
    (a.ne b = true ↔ a.lazyhash ≠ b.lazyhash) ∧
    (∀ v w : PyObj,
      LazyObject.eq { a with lazyvalue := v } { b with lazyvalue := w } = a.eq b) ∧
    (∀ v w : PyObj,
      LazyObject.ne { a with lazyvalue := v } { b with lazyvalue := w } = a.ne b) := by
  refine ⟨?_, ?_, ?_, ?_⟩ <;> simp [LazyObject.eq, LazyObject.ne]

theorem hashStream_call_two (g a b : PyObj) :
    hashStream (Option.some g) [a, b] [] PyObj.pynone =
      updatehash g ++ (updatehash a ++ updatehash b) := by
  simp [hashStream, updatehash, updatehash_list, isPyNone,
    String.append_assoc, String.append_empty]

theorem hashStream_call_nested (g a b : PyObj) :
    hashStream (Option.some g) [PyObj.list [a, b]] [] PyObj.pynone =
      updatehash g ++ (updatehash a ++ updatehash b) := by
  simp [hashStream, updatehash, updatehash_list, isPyNone,
    String.append_assoc, String.append_empty]

/-- C2 (amended): the fingerprint only sees the flattened stream of
operand contributions — list and tuple nesting adds no delimiters — so
a call node over positional operands `(a, b)` and one over the single
operand `[a, b]` always share a fingerprint. -/
theorem C2_fingerprint_flattened_nesting (lazifier : Lazy) (g a b : PyObj)
    (enc dec : Option Bool) :
    (mkLazyObject lazifier (Option.some g) [a, b] [] enc dec PyObj.pynone).lazyhash =
      (mkLazyObject lazifier (Option.some g) [PyObj.list [a, b]] [] enc dec
        PyObj.pynone).lazyhash := by
  show hashStream (Option.some g) [a, b] [] PyObj.pynone =
    hashStream (Option.some g) [PyObj.list [a, b]] [] PyObj.pynone
  rw [hashStream_call_two, hashStream_call_nested]

/-- C2 counterexample: the two structurally different call nodes
`call(f, (1, 2))` and `call(f, ([1, 2],))` — the very pair the claim
says must not collide — get identical digests and identical hex
digests. -/
theorem C2_counterexample_nesting_collision :
    (mkLazyObject exBase (Option.some exF) [PyObj.int 1, PyObj.int 2] []
        Option.none Option.none PyObj.pynone).lazyhash =
      (mkLazyObject exBase (Option.some exF) [PyObj.list [PyObj.int 1, PyObj.int 2]] []
        Option.none Option.none PyObj.pynone).lazyhash ∧
    (mkLazyObject exBase (Option.some exF) [PyObj.int 1, PyObj.int 2] []
        Option.none Option.none PyObj.pynone).lazyhexhash =
      (mkLazyObject exBase (Option.some exF) [PyObj.list [PyObj.int 1, PyObj.int 2]] []
        Option.none Option.none PyObj.pynone).lazyhexhash ∧
    (mkLazyObject exBase (Option.some exF) [PyObj.int 1, PyObj.int 2] []
        Option.none Option.none PyObj.pynone).args ≠
      (mkLazyObject exBase (Option.some exF) [PyObj.list [PyObj.int 1, PyObj.int 2]] []
        Option.none Option.none PyObj.pynone).args :=
  ⟨rfl, rfl, by intro h; simp [mkLazyObject] at h⟩

/-- C3: a function's fingerprint contribution is its qualified name,
module name and module file only — never its address — so structurally
identical call nodes over the same callable, built with any addresses
(different process runs) and any factory defaults, share both digest
and hex digest. -/
theorem C3_callable_hash_address_independent (lz1 lz2 : Lazy)
    (qualname modname modfile : String) (a1 a2 : Nat)
    (args1 args2 : List PyObj) (kwargs1 kwargs2 : List (String × PyObj))
    (enc1 dec1 enc2 dec2 : Option Bool)
    (hargs : eraseAddrList args1 = eraseAddrList args2)
    (hkw : eraseAddrKV kwargs1 = eraseAddrKV kwargs2) :
    (mkLazyObject lz1 (Option.some (PyObj.func qualname modname modfile a1))
        args1 kwargs1 enc1 dec1 PyObj.pynone).lazyhash =
      (mkLazyObject lz2 (Option.some (PyObj.func qualname modname modfile a2))
        args2 kwargs2 enc2 dec2 PyObj.pynone).lazyhash ∧
    (mkLazyObject lz1 (Option.some (PyObj.func qualname modname modfile a1))
        args1 kwargs1 enc1 dec1 PyObj.pynone).lazyhexhash =
      (mkLazyObject lz2 (Option.some (PyObj.func qualname modname modfile a2))
        args2 kwargs2 enc2 dec2 PyObj.pynone).lazyhexhash := by
  have hlen : args1.length = args2.length := by
    rw [← eraseAddrList_length args1, hargs, eraseAddrList_length]
  have hklen : kwargs1.length = kwargs2.length := by
    rw [← eraseAddrKV_length kwargs1, hkw, eraseAddrKV_length]
  have hl : updatehash_list args1 = updatehash_list args2 := by
    rw [← updatehash_list_eraseAddr args1, hargs, updatehash_list_eraseAddr]
  have hk : hashKV kwargs1 = hashKV kwargs2 := by
    rw [← hashKV_eraseAddr kwargs1, hkw, hashKV_eraseAddr]
  have hstream : hashStream (Option.some (PyObj.func qualname modname modfile a1))
      args1 kwargs1 PyObj.pynone =
      hashStream (Option.some (PyObj.func qualname modname modfile a2))
        args2 kwargs2 PyObj.pynone := by
    simp only [hashStream, updatehash, hl, hk, ne_eq]
    rw [hlen, hklen]
  exact ⟨hstream, congrArg hexdigestOf hstream⟩

/-- Witness for C3: two builds of the same call over function `f` of
module `mod`, with different runtime addresses for both the callable
and a function operand, and different factory defaults, agree on digest
and hex digest. -/
theorem C3_callable_hash_address_independent_witness :
    (mkLazyObject exBase (Option.some (PyObj.func "f" "mod" "/home/mod.py" 1001))
        [PyObj.func "g" "mod" "/home/mod.py" 7] [] Option.none Option.none
        PyObj.pynone).lazyhash =
      (mkLazyObject ⟨false, true⟩ (Option.some (PyObj.func "f" "mod" "/home/mod.py" 2002))
        [PyObj.func "g" "mod" "/home/mod.py" 8] [] Option.none Option.none
        PyObj.pynone).lazyhash ∧
    (mkLazyObject exBase (Option.some (PyObj.func "f" "mod" "/home/mod.py" 1001))
        [PyObj.func "g" "mod" "/home/mod.py" 7] [] Option.none Option.none
        PyObj.pynone).lazyhexhash =
      (mkLazyObject ⟨false, true⟩ (Option.some (PyObj.func "f" "mod" "/home/mod.py" 2002))
        [PyObj.func "g" "mod" "/home/mod.py" 8] [] Option.none Option.none
        PyObj.pynone).lazyhexhash :=
  C3_callable_hash_address_independent exBase ⟨false, true⟩ "f" "mod" "/home/mod.py"
    1001 2002 [PyObj.func "g" "mod" "/home/mod.py" 7]
    [PyObj.func "g" "mod" "/home/mod.py" 8] [] []
    Option.none Option.none Option.none Option.none rfl rfl

/-- C4: named operands are fed sorted by key, so the two insertion
orders of a two-entry keyword mapping with distinct keys produce the
same fingerprint. -/
theorem C4_kwargs_order_insensitive (lazifier : Lazy) (g a b : PyObj) (x y : String)
    (enc dec : Option Bool) (hxy : x ≠ y) :
    (mkLazyObject lazifier (Option.some g) [] [(x, a), (y, b)] enc dec
        PyObj.pynone).lazyhash =
      (mkLazyObject lazifier (Option.some g) [] [(y, b), (x, a)] enc dec
        PyObj.pynone).lazyhash := by
  have hsort : sortKV [(x, updatehash a), (y, updatehash b)] =
      sortKV [(y, updatehash b), (x, updatehash a)] := by
    rcases lt_or_gt_of_ne hxy with hlt | hgt
    · simp [sortKV, insortKV, le_of_lt hlt, not_le.mpr hlt]
    · simp [sortKV, insortKV, le_of_lt hgt, not_le.mpr hgt]
  show hashStream (Option.some g) [] [(x, a), (y, b)] PyObj.pynone =
    hashStream (Option.some g) [] [(y, b), (x, a)] PyObj.pynone
  simp [hashStream, updatehash, hashKV, hsort]

/-- Witness for C4 at concrete keys x and y with values 1 and 2. -/
theorem C4_kwargs_order_insensitive_witness :
    (mkLazyObject exBase (Option.some exF) [] [("x", PyObj.int 1), ("y", PyObj.int 2)]
        Option.none Option.none PyObj.pynone).lazyhash =
      (mkLazyObject exBase (Option.some exF) [] [("y", PyObj.int 2), ("x", PyObj.int 1)]
        Option.none Option.none PyObj.pynone).lazyhash :=
  C4_kwargs_order_insensitive exBase exF (PyObj.int 1) (PyObj.int 2) "x" "y"
    Option.none Option.none (by decide)

/-- C5 (amended): swapping two positional operands changes the
fingerprint whenever the operands' stream contributions differ and have
equal length; without the length condition the delimiter-free
flattening can make the two orders collide. -/
theorem C5_order_sensitive_equal_length (lazifier : Lazy) (g a b : PyObj)
    (enc dec : Option Bool)
    (hlen : (updatehash a).length = (updatehash b).length)
    (hne : updatehash a ≠ updatehash b) :
    (mkLazyObject lazifier (Option.some g) [a, b] [] enc dec PyObj.pynone).lazyhash ≠
      (mkLazyObject lazifier (Option.some g) [b, a] [] enc dec PyObj.pynone).lazyhash := by
  intro hcontra
  apply hne
  have hc : updatehash g ++ (updatehash a ++ updatehash b) =
      updatehash g ++ (updatehash b ++ updatehash a) := by
    rw [← hashStream_call_two g a b, ← hashStream_call_two g b a]
    exact hcontra
  have hd := congrArg String.data hc
  simp only [String.data_append] at hd
  have hcancel : (updatehash a).data ++ (updatehash b).data =
      (updatehash b).data ++ (updatehash a).data := List.append_cancel_left hd
  have hlen2 : (updatehash a).data.length = (updatehash b).data.length := hlen
  exact String.ext (List.append_inj hcancel hlen2).1

/-- Witness for C5 at the distinct one-digit operands 1 and 2. -/
theorem C5_order_sensitive_equal_length_witness :
    (mkLazyObject exBase (Option.some exF) [PyObj.int 1, PyObj.int 2] []
        Option.none Option.none PyObj.pynone).lazyhash ≠
      (mkLazyObject exBase (Option.some exF) [PyObj.int 2, PyObj.int 1] []
        Option.none Option.none PyObj.pynone).lazyhash :=
  C5_order_sensitive_equal_length exBase exF (PyObj.int 1) (PyObj.int 2)
    Option.none Option.none (by decide) (by decide)

/-- C5 counterexample: the distinct operands 1 and 11 in the two orders
give the byte streams "1" ++ "11" and "11" ++ "1" after the callable's
contribution — the same bytes — so the two call nodes share digest and
hex digest although the claim says they must differ. -/
theorem C5_counterexample_digit_concat_collision :
    (mkLazyObject exBase (Option.some exF) [PyObj.int 1, PyObj.int 11] []
        Option.none Option.none PyObj.pynone).lazyhash =
      (mkLazyObject exBase (Option.some exF) [PyObj.int 11, PyObj.int 1] []
        Option.none Option.none PyObj.pynone).lazyhash ∧
    (mkLazyObject exBase (Option.some exF) [PyObj.int 1, PyObj.int 11] []
        Option.none Option.none PyObj.pynone).lazyhexhash =
      (mkLazyObject exBase (Option.some exF) [PyObj.int 11, PyObj.int 1] []
        Option.none Option.none PyObj.pynone).lazyhexhash ∧
    PyObj.int 1 ≠ PyObj.int 11 :=
  ⟨rfl, rfl, by intro h; simp at h⟩
